import Mathlib

/-!
Verification of the Solana BPF escrow program (src/instruction.rs,
src/error.rs, src/processor.rs) against its natural-language
specification.  The source is shallowly embedded: pure Rust functions
become Lean functions, the two instruction processors become functions
from their ordered account inputs to the list of custody-service calls
they issue together with either an error or their final state effects.
Machine integers (u64, u8) are modelled as Nat with explicit bounds
where overflow matters.
-/

namespace SolEscrow

/-- A ledger address (32-byte public key), modelled abstractly. -/
def Pubkey := Nat

instance : DecidableEq Pubkey := instDecidableEqNat

instance : OfNat Pubkey n := ⟨(n : Nat)⟩

/-- The fixed address of the external SPL token (asset-custody) program,
an abstract constant. -/
def spl_token_id : Pubkey := 7777

/-- u64 overflow bound. -/
def u64Size : Nat := 2 ^ 64

/-- Errors surfaced by the host runtime (solana_program::ProgramError),
restricted to the variants this program can produce or propagate. -/
inductive ProgramError where
  | Custom (n : Nat)
  | InvalidAccountData
  | IncorrectProgramId
  | MissingRequiredSignature
  | AccountAlreadyInitialized
  | UninitializedAccount
  deriving DecidableEq, Repr

/-- The program's own error enum (src/error.rs). -/
inductive EscrowError where
  | InvalidInstruction
  | NotRentExempt
  | ExpectedAmountMismatch
  | Overflow
  deriving DecidableEq, Repr

/-- `From<EscrowError> for ProgramError`: `Custom(e as u32)` with the
discriminants in declaration order (src/error.rs lines 19-23). -/
def EscrowError.toProgramError : EscrowError → ProgramError
  | .InvalidInstruction => .Custom 0
  | .NotRentExempt => .Custom 1
  | .ExpectedAmountMismatch => .Custom 2
  | .Overflow => .Custom 3

/-! ## Instruction decoder (src/instruction.rs) -/

/-- The two typed commands (src/instruction.rs `EscrowInstruction`);
amounts are u64 values. -/
inductive EscrowInstruction where
  | InitEscrow (amount : Nat)
  | Exchange (amount : Nat)
  deriving DecidableEq, Repr

/-- `u64::from_le_bytes` on a little-endian byte list. -/
def u64FromLeBytes (bs : List (Fin 256)) : Nat :=
  bs.foldr (fun b acc => b.val + 256 * acc) 0

/-- `EscrowInstruction::unpack_amount` (src/instruction.rs lines 55-62):
take the first 8 bytes as a little-endian u64, failing with
`InvalidInstruction` when fewer than 8 bytes remain. -/
def EscrowInstruction.unpack_amount (input : List (Fin 256)) :
    Except ProgramError Nat :=
  if 8 ≤ input.length then
    .ok (u64FromLeBytes (input.take 8))
  else
    .error EscrowError.InvalidInstruction.toProgramError

/-- `EscrowInstruction::unpack` (src/instruction.rs lines 41-53):
the first byte selects the opcode (0 → InitEscrow, 1 → Exchange), the
following bytes give the amount; anything else fails
`InvalidInstruction`. -/
def EscrowInstruction.unpack (input : List (Fin 256)) :
    Except ProgramError EscrowInstruction :=
  match input with
  | [] => .error EscrowError.InvalidInstruction.toProgramError
  | tag :: rest =>
    if tag.val = 0 then
      (EscrowInstruction.unpack_amount rest).map (fun a => .InitEscrow a)
    else if tag.val = 1 then
      (EscrowInstruction.unpack_amount rest).map (fun a => .Exchange a)
    else
      .error EscrowError.InvalidInstruction.toProgramError

/-! ## Ledger accounts and persisted state -/

instance : Repr Pubkey := instReprNat

/-- The fields of an SPL token account that this program reads
(`spl_token::state::Account`); only `amount` is inspected
(src/processor.rs line 149). -/
structure TokenAccount where
  amount : Nat
  deriving DecidableEq, Repr

/-- Modelled from the spec: the Escrow Record of src/state.rs, which is
referenced by src/processor.rs but absent from the sources.  Spec §3
gives its fields: `is_initialized`, the initializer's principal, the
holding account, the initializer's destination account, and the
expected u64 amount.  Field names follow their uses in
src/processor.rs. -/
structure Escrow where
  is_initialized : Bool
  initializer_pubkey : Pubkey
  temp_token_account_pubkey : Pubkey
  initializer_dest_token_account_pubkey : Pubkey
  expected_amount : Nat
  deriving DecidableEq, Repr

/-- Modelled from the spec: the packed byte length of the fixed-size
Escrow Record (spec §3): 1 (bool) + 3 × 32 (addresses) + 8 (u64). -/
def Escrow.LEN : Nat := 105

/-- The byte content of a ledger account's data region, abstracted to
what the program can decode from it: a valid SPL token account, a
region parsing under the Escrow Record layout (an all-zero fresh
105-byte region parses with `is_initialized = false`), or anything
else of a given length. -/
inductive AccountData where
  | token (t : TokenAccount)
  | escrowBytes (e : Escrow)
  | raw (len : Nat)
  deriving DecidableEq, Repr

/-- Data-region length in bytes: an SPL token account packs to 165
bytes, an Escrow Record to `Escrow.LEN`. -/
def AccountData.dataLen : AccountData → Nat
  | .token _ => 165
  | .escrowBytes _ => Escrow.LEN
  | .raw len => len

/-- `spl_token::state::Account::unpack`: succeeds exactly on data that
is a valid token account, otherwise `InvalidAccountData`. -/
def TokenAccount.unpack : AccountData → Except ProgramError TokenAccount
  | .token t => .ok t
  | _ => .error .InvalidAccountData

/-- Modelled from the spec: `Escrow::unpack_unchecked` from the missing
src/state.rs, the standard `Pack` decode without the initialization
check: data of the wrong layout fails `InvalidAccountData`. -/
def Escrow.unpack_unchecked : AccountData → Except ProgramError Escrow
  | .escrowBytes e => .ok e
  | _ => .error .InvalidAccountData

/-- Modelled from the spec: `Escrow::unpack` from the missing
src/state.rs, the standard `Pack` decode which additionally fails
`UninitializedAccount` when `is_initialized` is false (spec §4.3 step 1:
decoding fails uninitialized if the record is absent). -/
def Escrow.unpack (d : AccountData) : Except ProgramError Escrow :=
  match Escrow.unpack_unchecked d with
  | .error e => .error e
  | .ok info => if info.is_initialized then .ok info else .error .UninitializedAccount

/-- One ledger account reference as handed to the processor
(`solana_program::account_info::AccountInfo`), restricted to the
fields this program reads. -/
structure AccountInfo where
  key : Pubkey
  is_signer : Bool
  owner : Pubkey
  lamports : Nat
  data : AccountData
  deriving DecidableEq, Repr

/-- `Rent::default().minimum_balance(data_len)`: with the default
parameters (3480 lamports per byte-year, 128-byte account overhead,
exemption threshold of 2 years) the minimum rent-exempt balance. -/
def rentMinimumBalance (data_len : Nat) : Nat :=
  (128 + data_len) * 3480 * 2

/-- `Rent::is_exempt(&Rent::default(), lamports, data_len)`
(src/processor.rs lines 64-68). -/
def rentIsExempt (lamports data_len : Nat) : Bool :=
  rentMinimumBalance data_len ≤ lamports

/-- `u64::checked_add` on the Nat model. -/
def checkedAdd (a b : Nat) : Option Nat :=
  if a + b < u64Size then some (a + b) else none

/-! ## Custody-service calls -/

/-- One cross-program invocation issued to the external SPL token
(asset-custody) program.  `seedBump = some bump` records that the call
was issued with `invoke_signed` under the program-derived authority's
seed-and-bump signing proof `[["escrow", bump]]`; `none` records a
plain `invoke` relying on a human signer. -/
inductive CpiCall where
  | setAuthority (token_program account : Pubkey) (newAuthority : Option Pubkey)
      (currentAuthority : Pubkey)
  | transfer (token_program source destination authority : Pubkey) (amount : Nat)
      (seedBump : Option Nat)
  | closeAccount (token_program account destination authority : Pubkey)
      (seedBump : Option Nat)
  deriving DecidableEq, Repr

/-! ## Processor (src/processor.rs)

Each processor is a function from its ordered account references (the
fields mirror the `next_account_info` pulls, in order), the decoded
`amount`, and the result `(pda, bump)` of the host's deterministic
`Pubkey::find_program_address(["escrow"], program_id)` derivation, to
the ordered list of custody-service calls issued before the outcome,
paired with either the error aborting the invocation or its final
effects.  An error outcome carries no state effects: the host discards
every write of a failed invocation. -/

/-- `Processor::process_init_escrow` (src/processor.rs lines 32-109).
On success returns the Escrow Record persisted into the escrow
account's data, and the single authority-change call re-owning the
temp token account to the program-derived authority. -/
def process_init_escrow (initializer temp_token_account dest_token_account escrow_account token_program : AccountInfo) (amount : Nat) (pda : Pubkey) :
    List CpiCall × Except ProgramError Escrow :=
  if initializer.is_signer then
    if dest_token_account.owner = spl_token_id then
      match TokenAccount.unpack dest_token_account.data with
      | .error e => ([], .error e)
      | .ok _ =>
        if rentIsExempt escrow_account.lamports escrow_account.data.dataLen then
          match Escrow.unpack_unchecked escrow_account.data with
          | .error e => ([], .error e)
          | .ok escrow_info =>
            if escrow_info.is_initialized then
              ([], .error .AccountAlreadyInitialized)
            else
              -- spl_token::instruction::set_authority validates the
              -- token program id before the instruction is built.
              if token_program.key = spl_token_id then
                ([CpiCall.setAuthority token_program.key temp_token_account.key
                    (some pda) initializer.key],
                 .ok { is_initialized := true
                       initializer_pubkey := initializer.key
                       temp_token_account_pubkey := temp_token_account.key
                       initializer_dest_token_account_pubkey := dest_token_account.key
                       expected_amount := amount })
              else ([], .error .IncorrectProgramId)
        else ([], .error EscrowError.NotRentExempt.toProgramError)
    else ([], .error .IncorrectProgramId)
  else ([], .error .MissingRequiredSignature)

/-- The state effects of a successful Exchange: the initializer
principal's new balance, and the escrow account's balance and emptied
data region. -/
structure ExchangeEffects where
  initializer_lamports : Nat
  escrow_lamports : Nat
  escrow_data : AccountData
  deriving DecidableEq, Repr

/-- `Processor::process_exchange` (src/processor.rs lines 111-235).
Validation order follows the source: decode the Escrow Record, check
the taker signed, cross-check the three stored addresses, decode the
holding (temp token) account and compare its balance to the supplied
`amount`; then issue the two transfers and the close, and finally
reclaim the escrow account's rent with overflow-checked addition. -/
def process_exchange (taker taker_source_token_account taker_dest_token_account temp_token_account initializer initializer_dest_token_account escrow_account token_program pda_account : AccountInfo) (amount : Nat) (pda : Pubkey) (bump : Nat) :
    List CpiCall × Except ProgramError ExchangeEffects :=
  match Escrow.unpack escrow_account.data with
  | .error e => ([], .error e)
  | .ok escrow =>
    if taker.is_signer then
      if temp_token_account.key = escrow.temp_token_account_pubkey then
        if initializer.key = escrow.initializer_pubkey then
          if initializer_dest_token_account.key = escrow.initializer_dest_token_account_pubkey then
            match TokenAccount.unpack temp_token_account.data with
            | .error e => ([], .error e)
            | .ok temp_token_account_info =>
              if temp_token_account_info.amount = amount then
                -- spl_token::instruction::transfer / close_account
                -- validate the token program id when built.
                if token_program.key = spl_token_id then
                  let calls : List CpiCall :=
                    [CpiCall.transfer token_program.key
                        taker_source_token_account.key
                        initializer_dest_token_account.key
                        taker.key escrow.expected_amount none,
                     CpiCall.transfer token_program.key
                        temp_token_account.key
                        taker_dest_token_account.key
                        pda amount (some bump),
                     CpiCall.closeAccount token_program.key
                        temp_token_account.key
                        initializer.key pda (some bump)]
                  match checkedAdd initializer.lamports escrow_account.lamports with
                  | some newLamports =>
                    (calls, .ok { initializer_lamports := newLamports
                                  escrow_lamports := 0
                                  escrow_data := .raw 0 })
                  | none => (calls, .error EscrowError.Overflow.toProgramError)
                else ([], .error .IncorrectProgramId)
              else ([], .error EscrowError.ExpectedAmountMismatch.toProgramError)
          else ([], .error .InvalidAccountData)
        else ([], .error .InvalidAccountData)
      else ([], .error .InvalidAccountData)
    else ([], .error .MissingRequiredSignature)

/-! ## Concrete fixture accounts used to witness the theorems -/

/-- Fixture: a taker principal that signed. -/
def wTaker : AccountInfo := ⟨1, true, 0, 100, .raw 0⟩

/-- Fixture: the taker's source token account. -/
def wTakerSrc : AccountInfo := ⟨2, false, 0, 0, .raw 0⟩

/-- Fixture: the taker's destination token account. -/
def wTakerDst : AccountInfo := ⟨3, false, 0, 0, .raw 0⟩

/-- Fixture: the holding (temp token) account with 1000 units. -/
def wTemp : AccountInfo := ⟨20, false, 0, 0, .token ⟨1000⟩⟩

/-- Fixture: the initializer principal. -/
def wInitializer : AccountInfo := ⟨10, false, 0, 5, .raw 0⟩

/-- Fixture: the initializer's destination token account. -/
def wInitDest : AccountInfo := ⟨30, false, spl_token_id, 0, .token ⟨0⟩⟩

/-- Fixture: an open Escrow Record expecting 500 counter-units. -/
def wEscrowRec : Escrow := ⟨true, 10, 20, 30, 500⟩

/-- Fixture: the escrow storage account holding `wEscrowRec`. -/
def wEscrowAcc : AccountInfo := ⟨40, false, 0, 7, .escrowBytes wEscrowRec⟩

/-- Fixture: a fresh rent-exempt escrow storage account (all-zero data). -/
def wFreshEscrowAcc : AccountInfo := ⟨40, false, 0, 2000000, .escrowBytes ⟨false, 0, 0, 0, 0⟩⟩

/-- Fixture: the token-program account reference. -/
def wTokenProg : AccountInfo := ⟨spl_token_id, false, 0, 0, .raw 0⟩

/-- Fixture: the program-derived-authority account reference. -/
def wPdaAcc : AccountInfo := ⟨99, false, 0, 0, .raw 0⟩

/-- Fixture: an initializer principal that signed (for Open). -/
def wOpener : AccountInfo := ⟨10, true, 0, 100, .raw 0⟩

end SolEscrow

namespace SolEscrow

/-- C5: the instruction decoder is a pure function of the bytes: with at
least 9 bytes and first byte 0 (resp. 1) it returns InitEscrow
(resp. Exchange) carrying the little-endian u64 of bytes 1..8, ignoring
any further bytes; with fewer than 9 bytes, or a first byte other than
0 or 1, it fails with `InvalidInstruction`. -/
theorem unpack_decoder_spec (input : List (Fin 256)) :
    (input.length < 9 →
      EscrowInstruction.unpack input =
        .error EscrowError.InvalidInstruction.toProgramError) ∧
    (∀ tag rest, input = tag :: rest →
      (tag.val ≠ 0 → tag.val ≠ 1 →
        EscrowInstruction.unpack input =
          .error EscrowError.InvalidInstruction.toProgramError) ∧
      (9 ≤ input.length →
        (tag.val = 0 →
          EscrowInstruction.unpack input =
            .ok (.InitEscrow (u64FromLeBytes (rest.take 8)))) ∧
        (tag.val = 1 →
          EscrowInstruction.unpack input =
            .ok (.Exchange (u64FromLeBytes (rest.take 8)))))) := by
  constructor
  · intro hlen
    match input with
    | [] => rfl
    | tag :: rest =>
      simp only [List.length_cons] at hlen
      have hrest : rest.length < 8 := by omega
      by_cases h0 : tag.val = 0
      · simp [EscrowInstruction.unpack, h0, EscrowInstruction.unpack_amount,
          Nat.not_le.mpr hrest, Except.map]
      · by_cases h1 : tag.val = 1
        · simp [EscrowInstruction.unpack, h0, h1,
            EscrowInstruction.unpack_amount, Nat.not_le.mpr hrest, Except.map]
        · simp [EscrowInstruction.unpack, h0, h1]
  · intro tag rest heq
    subst heq
    refine ⟨fun h0 h1 => by simp [EscrowInstruction.unpack, h0, h1], ?_⟩
    intro hlen
    simp only [List.length_cons] at hlen
    have hrest : 8 ≤ rest.length := by omega
    constructor
    · intro h0
      simp [EscrowInstruction.unpack, h0, EscrowInstruction.unpack_amount,
        hrest, Except.map]
    · intro h1
      by_cases h0 : tag.val = 0
      · omega
      · simp [EscrowInstruction.unpack, h0, h1,
          EscrowInstruction.unpack_amount, hrest, Except.map]

/-- Witness for C5 at concrete inputs: a 10-byte Open instruction
decodes, a wrong opcode fails, and a short input fails. -/
theorem unpack_decoder_spec_witness :
    EscrowInstruction.unpack [0, 1, 0, 0, 0, 0, 0, 0, 0, 5] =
      .ok (.InitEscrow (u64FromLeBytes (([1, 0, 0, 0, 0, 0, 0, 0, 5] : List (Fin 256)).take 8))) ∧
    EscrowInstruction.unpack ([2, 0, 0, 0, 0, 0, 0, 0, 0] : List (Fin 256)) =
      .error EscrowError.InvalidInstruction.toProgramError ∧
    EscrowInstruction.unpack ([1, 2] : List (Fin 256)) =
      .error EscrowError.InvalidInstruction.toProgramError :=
  ⟨(((unpack_decoder_spec [0, 1, 0, 0, 0, 0, 0, 0, 0, 5]).2 0
      [1, 0, 0, 0, 0, 0, 0, 0, 5] rfl).2 (by decide)).1 rfl,
   ((unpack_decoder_spec [2, 0, 0, 0, 0, 0, 0, 0, 0]).2 2
      [0, 0, 0, 0, 0, 0, 0, 0] rfl).1 (by decide) (by decide),
   (unpack_decoder_spec [1, 2]).1 (by decide)⟩

/-- C1: every Exchange (Settle) invocation that passes all validation
issues exactly three custody-service calls, in order: the transfer of
the Record's stored `expected_amount` from the taker's source account
to the initializer's destination account authorized by the taker; the
transfer of the supplied `amount` from the holding account to the
taker's destination account under the derived authority's
seed-and-bump proof; and the close of the holding account sending its
rent to the initializer's principal under the same proof. -/
theorem settle_success_calls
    (taker src dst temp ini dest esc tok pacc : AccountInfo)
    (amount : Nat) (pda : Pubkey) (bump : Nat) (escrow : Escrow)
    (calls : List CpiCall) (eff : ExchangeEffects)
    (hesc : Escrow.unpack esc.data = .ok escrow)
    (h : process_exchange taker src dst temp ini dest esc tok pacc amount pda bump
          = (calls, .ok eff)) :
    calls = [CpiCall.transfer tok.key src.key dest.key taker.key escrow.expected_amount none,
             CpiCall.transfer tok.key temp.key dst.key pda amount (some bump),
             CpiCall.closeAccount tok.key temp.key ini.key pda (some bump)] := by
  unfold process_exchange at h
  rw [hesc] at h
  repeat' split at h
  all_goals simp_all

/-- Witness for C1: the fixture settlement succeeds and issues exactly
the three calls. -/
theorem settle_success_calls_witness :
    ([CpiCall.transfer wTokenProg.key wTakerSrc.key wInitDest.key wTaker.key
        wEscrowRec.expected_amount none,
      CpiCall.transfer wTokenProg.key wTemp.key wTakerDst.key 99 1000 (some 255),
      CpiCall.closeAccount wTokenProg.key wTemp.key wInitializer.key 99 (some 255)]
      : List CpiCall)
    = [CpiCall.transfer wTokenProg.key wTakerSrc.key wInitDest.key wTaker.key
        wEscrowRec.expected_amount none,
       CpiCall.transfer wTokenProg.key wTemp.key wTakerDst.key 99 1000 (some 255),
       CpiCall.closeAccount wTokenProg.key wTemp.key wInitializer.key 99 (some 255)] :=
  settle_success_calls wTaker wTakerSrc wTakerDst wTemp wInitializer wInitDest
    wEscrowAcc wTokenProg wPdaAcc 1000 99 255 wEscrowRec _
    ⟨12, 0, .raw 0⟩ rfl rfl

/-- C2: a Settle whose holding-account balance differs from the
supplied `amount` (all earlier validation passing) aborts with
`ExpectedAmountMismatch` with no custody call issued; the error
outcome carries no writes, so the Record stays open and unchanged. -/
theorem settle_amount_mismatch
    (taker src dst temp ini dest esc tok pacc : AccountInfo)
    (amount : Nat) (pda : Pubkey) (bump : Nat)
    (escrow : Escrow) (tinfo : TokenAccount)
    (hesc : Escrow.unpack esc.data = .ok escrow)
    (hsig : taker.is_signer = true)
    (htemp : temp.key = escrow.temp_token_account_pubkey)
    (hini : ini.key = escrow.initializer_pubkey)
    (hdest : dest.key = escrow.initializer_dest_token_account_pubkey)
    (htok : TokenAccount.unpack temp.data = .ok tinfo)
    (hne : tinfo.amount ≠ amount) :
    process_exchange taker src dst temp ini dest esc tok pacc amount pda bump
      = ([], .error EscrowError.ExpectedAmountMismatch.toProgramError) := by
  unfold process_exchange
  rw [hesc]
  simp [hsig, htemp, hini, hdest, htok, hne]

/-- Witness for C2: the fixture settlement with `amount = 999` while
the holding account holds 1000 fails `ExpectedAmountMismatch`. -/
theorem settle_amount_mismatch_witness :
    process_exchange wTaker wTakerSrc wTakerDst wTemp wInitializer wInitDest
      wEscrowAcc wTokenProg wPdaAcc 999 99 255
      = ([], .error EscrowError.ExpectedAmountMismatch.toProgramError) :=
  settle_amount_mismatch wTaker wTakerSrc wTakerDst wTemp wInitializer wInitDest
    wEscrowAcc wTokenProg wPdaAcc 999 99 255 wEscrowRec ⟨1000⟩
    rfl rfl rfl rfl rfl rfl (by decide)

/-- C3: a Settle supplying a holding account, initializer principal, or
initializer-destination account that differs from the Record's stored
address (record decoded, taker signed) aborts with
`InvalidAccountData` with no custody call issued and no writes. -/
theorem settle_account_mismatch
    (taker src dst temp ini dest esc tok pacc : AccountInfo)
    (amount : Nat) (pda : Pubkey) (bump : Nat) (escrow : Escrow)
    (hesc : Escrow.unpack esc.data = .ok escrow)
    (hsig : taker.is_signer = true)
    (hmm : temp.key ≠ escrow.temp_token_account_pubkey ∨
           ini.key ≠ escrow.initializer_pubkey ∨
           dest.key ≠ escrow.initializer_dest_token_account_pubkey) :
    process_exchange taker src dst temp ini dest esc tok pacc amount pda bump
      = ([], .error .InvalidAccountData) := by
  unfold process_exchange
  rw [hesc]
  by_cases h1 : temp.key = escrow.temp_token_account_pubkey <;>
    by_cases h2 : ini.key = escrow.initializer_pubkey <;>
      by_cases h3 : dest.key = escrow.initializer_dest_token_account_pubkey <;>
        simp_all

/-- Witness for C3: the fixture settlement with a substituted
initializer-destination account (key 31 instead of the stored 30)
fails `InvalidAccountData`. -/
theorem settle_account_mismatch_witness :
    process_exchange wTaker wTakerSrc wTakerDst wTemp wInitializer
      ⟨31, false, spl_token_id, 0, .token ⟨0⟩⟩
      wEscrowAcc wTokenProg wPdaAcc 1000 99 255
      = ([], .error .InvalidAccountData) :=
  settle_account_mismatch wTaker wTakerSrc wTakerDst wTemp wInitializer
    ⟨31, false, spl_token_id, 0, .token ⟨0⟩⟩
    wEscrowAcc wTokenProg wPdaAcc 1000 99 255 wEscrowRec
    rfl rfl (by decide)

/-- C4: in Settle's final step the escrow account's rent balance is
added to the initializer's balance with overflow-checked u64 addition:
on overflow the invocation aborts with `Overflow` (an error outcome
carries no writes, so balances and the Record are untouched by this
program); otherwise the initializer's balance grows by exactly the
escrow account's balance, the escrow balance becomes zero and its data
region is emptied, leaving the slot undecodable as a record. -/
theorem settle_rent_reclaim
    (taker src dst temp ini dest esc tok pacc : AccountInfo)
    (amount : Nat) (pda : Pubkey) (bump : Nat)
    (escrow : Escrow) (tinfo : TokenAccount)
    (hesc : Escrow.unpack esc.data = .ok escrow)
    (hsig : taker.is_signer = true)
    (htemp : temp.key = escrow.temp_token_account_pubkey)
    (hini : ini.key = escrow.initializer_pubkey)
    (hdest : dest.key = escrow.initializer_dest_token_account_pubkey)
    (htok : TokenAccount.unpack temp.data = .ok tinfo)
    (hamt : tinfo.amount = amount)
    (hprog : tok.key = spl_token_id) :
    (u64Size ≤ ini.lamports + esc.lamports →
      (process_exchange taker src dst temp ini dest esc tok pacc amount pda bump).2
        = .error EscrowError.Overflow.toProgramError) ∧
    (ini.lamports + esc.lamports < u64Size →
      (process_exchange taker src dst temp ini dest esc tok pacc amount pda bump).2
        = .ok { initializer_lamports := ini.lamports + esc.lamports,
                escrow_lamports := 0,
                escrow_data := .raw 0 }) := by
  unfold process_exchange
  rw [hesc]
  constructor
  · intro hov
    simp [hsig, htemp, hini, hdest, htok, hamt, hprog, checkedAdd, Nat.not_lt.mpr hov]
  · intro hlt
    simp [hsig, htemp, hini, hdest, htok, hamt, hprog, checkedAdd, hlt]

/-- Witness for C4: the fixture settlement reclaims 7 lamports of rent
into the initializer's balance of 5; with both balances at the u64
maximum instead, the addition overflows and Settle fails `Overflow`. -/
theorem settle_rent_reclaim_witness :
    (process_exchange wTaker wTakerSrc wTakerDst wTemp wInitializer wInitDest
        wEscrowAcc wTokenProg wPdaAcc 1000 99 255).2
      = .ok { initializer_lamports := 12, escrow_lamports := 0,
              escrow_data := .raw 0 } ∧
    (process_exchange wTaker wTakerSrc wTakerDst wTemp
        ⟨10, false, 0, 18446744073709551615, .raw 0⟩ wInitDest
        ⟨40, false, 0, 18446744073709551615, .escrowBytes wEscrowRec⟩
        wTokenProg wPdaAcc 1000 99 255).2
      = .error EscrowError.Overflow.toProgramError :=
  ⟨(settle_rent_reclaim wTaker wTakerSrc wTakerDst wTemp wInitializer wInitDest
      wEscrowAcc wTokenProg wPdaAcc 1000 99 255 wEscrowRec ⟨1000⟩
      rfl rfl rfl rfl rfl rfl rfl rfl).2 (by decide),
   (settle_rent_reclaim wTaker wTakerSrc wTakerDst wTemp
      ⟨10, false, 0, 18446744073709551615, .raw 0⟩ wInitDest
      ⟨40, false, 0, 18446744073709551615, .escrowBytes wEscrowRec⟩
      wTokenProg wPdaAcc 1000 99 255 wEscrowRec ⟨1000⟩
      rfl rfl rfl rfl rfl rfl rfl rfl).1 (by decide)⟩

/-- C6: an Open on an Escrow Record whose `is_initialized` flag is
already true (all earlier validation passing) aborts with
`AlreadyInitialized`; the error outcome carries no write, so the
Record's contents are exactly what they were before the failed Open. -/
theorem open_already_initialized
    (ini temp dest esc tok : AccountInfo) (amount : Nat) (pda : Pubkey)
    (info : Escrow) (t : TokenAccount)
    (hsig : ini.is_signer = true)
    (howner : dest.owner = spl_token_id)
    (hdec : TokenAccount.unpack dest.data = .ok t)
    (hrent : rentIsExempt esc.lamports esc.data.dataLen = true)
    (hcur : Escrow.unpack_unchecked esc.data = .ok info)
    (hini : info.is_initialized = true) :
    process_init_escrow ini temp dest esc tok amount pda
      = ([], .error .AccountAlreadyInitialized) := by
  unfold process_init_escrow
  rw [hcur]
  simp [hsig, howner, hdec, hrent, hini]

/-- Witness for C6: re-opening the fixture live record (the state a
first Open persisted) fails `AlreadyInitialized`. -/
theorem open_already_initialized_witness :
    process_init_escrow wOpener wTemp wInitDest
      ⟨40, false, 0, 2000000, .escrowBytes wEscrowRec⟩ wTokenProg 500 99
      = ([], .error .AccountAlreadyInitialized) :=
  open_already_initialized wOpener wTemp wInitDest
    ⟨40, false, 0, 2000000, .escrowBytes wEscrowRec⟩ wTokenProg 500 99
    wEscrowRec ⟨0⟩ rfl rfl rfl (by decide) rfl rfl

/-- C7: a successful Open with supplied `amount` persists exactly the
inputs: the record has `is_initialized = true`, the initializer's
address, the supplied temp token account's address, the supplied
destination account's address, and `expected_amount = amount`. -/
theorem open_success_record
    (ini temp dest esc tok : AccountInfo) (amount : Nat) (pda : Pubkey)
    (calls : List CpiCall) (written : Escrow)
    (h : process_init_escrow ini temp dest esc tok amount pda
          = (calls, .ok written)) :
    written = { is_initialized := true
                initializer_pubkey := ini.key
                temp_token_account_pubkey := temp.key
                initializer_dest_token_account_pubkey := dest.key
                expected_amount := amount } := by
  unfold process_init_escrow at h
  repeat' split at h
  all_goals simp_all

/-- Witness for C7: the fixture Open with amount 500 persists exactly
the input addresses and amount. -/
theorem open_success_record_witness :
    ({ is_initialized := true
       initializer_pubkey := wOpener.key
       temp_token_account_pubkey := wTemp.key
       initializer_dest_token_account_pubkey := wInitDest.key
       expected_amount := 500 } : Escrow)
    = { is_initialized := true
        initializer_pubkey := wOpener.key
        temp_token_account_pubkey := wTemp.key
        initializer_dest_token_account_pubkey := wInitDest.key
        expected_amount := 500 } :=
  open_success_record wOpener wTemp wInitDest wFreshEscrowAcc wTokenProg 500 99
    [CpiCall.setAuthority wTokenProg.key wTemp.key (some 99) wOpener.key] _ rfl

/-- C8: in Open (initializer signed), a destination account not owned
by the token program aborts with the owner error — the spec's
`IncorrectOwner`, realised in the code as the host's
`IncorrectProgramId` variant — and an owned destination account whose
data does not decode as a token account aborts with
`InvalidAccountData`; both failures return an error outcome, which
carries no call and no write, so they occur before the Record is
written. -/
theorem open_dest_validation
    (ini temp dest esc tok : AccountInfo) (amount : Nat) (pda : Pubkey)
    (hsig : ini.is_signer = true) :
    (dest.owner ≠ spl_token_id →
      process_init_escrow ini temp dest esc tok amount pda
        = ([], .error .IncorrectProgramId)) ∧
    (dest.owner = spl_token_id →
      TokenAccount.unpack dest.data = .error .InvalidAccountData →
      process_init_escrow ini temp dest esc tok amount pda
        = ([], .error .InvalidAccountData)) := by
  constructor
  · intro howner
    unfold process_init_escrow
    simp [hsig, howner]
  · intro howner hdec
    unfold process_init_escrow
    rw [howner]
    simp [hsig, hdec]

/-- Witness for C8: a destination account owned by key 5 fails the
owner check, and a token-program-owned destination account with raw
data fails to decode. -/
theorem open_dest_validation_witness :
    process_init_escrow wOpener wTemp ⟨30, false, 5, 0, .token ⟨0⟩⟩
      wFreshEscrowAcc wTokenProg 500 99
      = ([], .error .IncorrectProgramId) ∧
    process_init_escrow wOpener wTemp ⟨30, false, spl_token_id, 0, .raw 3⟩
      wFreshEscrowAcc wTokenProg 500 99
      = ([], .error .InvalidAccountData) :=
  ⟨(open_dest_validation wOpener wTemp ⟨30, false, 5, 0, .token ⟨0⟩⟩
      wFreshEscrowAcc wTokenProg 500 99 rfl).1 (by decide),
   (open_dest_validation wOpener wTemp ⟨30, false, spl_token_id, 0, .raw 3⟩
      wFreshEscrowAcc wTokenProg 500 99 rfl).2 rfl rfl⟩

/-- C9: in Settle the Escrow Record is decoded before the taker's
signature is checked: with an uninitialized record and a non-signing
taker, the invocation fails with the record-decode error
`UninitializedAccount`, not `MissingRequiredSignature`. -/
theorem settle_decode_before_signer
    (taker src dst temp ini dest esc tok pacc : AccountInfo)
    (amount : Nat) (pda : Pubkey) (bump : Nat) (info : Escrow)
    (hdata : esc.data = .escrowBytes info)
    (hninit : info.is_initialized = false)
    (hns : taker.is_signer = false) :
    process_exchange taker src dst temp ini dest esc tok pacc amount pda bump
      = ([], .error .UninitializedAccount) := by
  unfold process_exchange
  rw [hdata]
  simp [Escrow.unpack, Escrow.unpack_unchecked, hninit]

/-- Witness for C9: a non-signing taker against a zeroed record fails
`UninitializedAccount`. -/
theorem settle_decode_before_signer_witness :
    process_exchange ⟨1, false, 0, 100, .raw 0⟩ wTakerSrc wTakerDst wTemp
      wInitializer wInitDest wFreshEscrowAcc wTokenProg wPdaAcc 1000 99 255
      = ([], .error .UninitializedAccount) :=
  settle_decode_before_signer ⟨1, false, 0, 100, .raw 0⟩ wTakerSrc wTakerDst
    wTemp wInitializer wInitDest wFreshEscrowAcc wTokenProg wPdaAcc 1000 99 255
    ⟨false, 0, 0, 0, 0⟩ rfl rfl rfl

/-- C10: Open never validates the holding (temp token) account: its
outcome depends on that account only through its address — two temp
accounts with the same key and arbitrary owner, balance and data give
identical outcomes — and a successful Open stores that address
verbatim in the Record. -/
theorem open_ignores_holding_account
    (ini temp temp2 dest esc tok : AccountInfo) (amount : Nat) (pda : Pubkey)
    (hkey : temp.key = temp2.key) :
    process_init_escrow ini temp dest esc tok amount pda
      = process_init_escrow ini temp2 dest esc tok amount pda ∧
    (∀ calls written,
      process_init_escrow ini temp dest esc tok amount pda
        = (calls, .ok written) →
      written.temp_token_account_pubkey = temp.key) := by
  constructor
  · unfold process_init_escrow
    rw [hkey]
  · intro calls written h
    clear hkey
    unfold process_init_escrow at h
    repeat' split at h
    all_goals simp_all
    rw [← h.2]

/-- Witness for C10: a temp account owned by key 5 with undecodable
data and one owned by the token program with token data, both at key
20, give identical Open outcomes, and the key is stored verbatim. -/
theorem open_ignores_holding_account_witness :
    process_init_escrow wOpener ⟨20, false, 5, 0, .raw 9⟩ wInitDest
      wFreshEscrowAcc wTokenProg 500 99
      = process_init_escrow wOpener ⟨20, false, spl_token_id, 33, .token ⟨7⟩⟩
          wInitDest wFreshEscrowAcc wTokenProg 500 99 ∧
    (20 : Pubkey) = 20 :=
  ⟨(open_ignores_holding_account wOpener ⟨20, false, 5, 0, .raw 9⟩
      ⟨20, false, spl_token_id, 33, .token ⟨7⟩⟩ wInitDest wFreshEscrowAcc
      wTokenProg 500 99 rfl).1,
   (open_ignores_holding_account wOpener ⟨20, false, 5, 0, .raw 9⟩
      ⟨20, false, spl_token_id, 33, .token ⟨7⟩⟩ wInitDest wFreshEscrowAcc
      wTokenProg 500 99 rfl).2
     [CpiCall.setAuthority wTokenProg.key 20 (some 99) wOpener.key]
     ⟨true, wOpener.key, 20, wInitDest.key, 500⟩ rfl⟩

end SolEscrow
